import Mathlib

/-!
Verification of the provider-configuration layer of terraform-provider-pulsar
(`src/pulsar/provider.go`).

The development shallowly embeds:
* the error behaviour of Go's `net/url.Parse` (from `net/url/url.go` in the Go
  standard library), which `validatePulsarConfig` uses as its only gate;
* the provider functions `validatePulsarConfig`, `providerConfigure` and the
  closure installed as `Provider.ConfigureContextFunc`.

The backend constructor `pulsar.New` is an external library call; it is made a
parameter `pulsarNew : Config → Except String Client`.  The effect of calling
it is made explicit: `providerConfigure` returns, besides its result, the list
of configurations it actually passed to `pulsarNew`, in call order.
-/

set_option autoImplicit false

namespace TfPulsar

/-! ### Model of Go `net/url` parsing (error behaviour of `url.Parse`) -/

/-- The escaping context, `encoding` in `net/url/url.go`. -/
inductive Encoding where
  | encodePath
  | encodePathSegment
  | encodeHost
  | encodeZone
  | encodeUserPassword
  | encodeQueryComponent
  | encodeFragment
deriving DecidableEq

/-- The single-quote character (code 39). -/
def squoteCh : Char := Char.ofNat 39

/-- The double-quote character (code 34). -/
def dquoteCh : Char := Char.ofNat 34

def isAlphaCh (c : Char) : Bool :=
  ('a' ≤ c && c ≤ 'z') || ('A' ≤ c && c ≤ 'Z')

def isDigitCh (c : Char) : Bool :=
  '0' ≤ c && c ≤ '9'

/-- `ishex` from `net/url/url.go`. -/
def ishex (c : Char) : Bool :=
  isDigitCh c || ('a' ≤ c && c ≤ 'f') || ('A' ≤ c && c ≤ 'F')

/-- `unhex` from `net/url/url.go`. -/
def unhex (c : Char) : Nat :=
  if isDigitCh c then c.toNat - '0'.toNat
  else if 'a' ≤ c && c ≤ 'f' then c.toNat - 'a'.toNat + 10
  else if 'A' ≤ c && c ≤ 'F' then c.toNat - 'A'.toNat + 10
  else 0

/-- `shouldEscape` from `net/url/url.go`: whether byte `c` must be
percent-encoded in context `mode`. -/
def shouldEscape (c : Char) (mode : Encoding) : Bool :=
  if isAlphaCh c || isDigitCh c then false
  else if (mode = .encodeHost || mode = .encodeZone) &&
      (c = '!' || c = '$' || c = '&' || c = squoteCh || c = '(' || c = ')' ||
       c = '*' || c = '+' || c = ',' || c = ';' || c = '=' || c = ':' ||
       c = '[' || c = ']' || c = '<' || c = '>' || c = dquoteCh) then false
  else if c = '-' || c = '_' || c = '.' || c = '~' then false
  else if c = '$' || c = '&' || c = '+' || c = ',' || c = '/' || c = ':' ||
      c = ';' || c = '=' || c = '?' || c = '@' then
    match mode with
    | .encodePath => c = '?'
    | .encodePathSegment => c = '/' || c = ';' || c = ',' || c = '?'
    | .encodeUserPassword => c = '@' || c = '/' || c = '?' || c = ':'
    | .encodeQueryComponent => true
    | .encodeFragment => false
    | _ => true
  else if mode = .encodeFragment && (c = '!' || c = '(' || c = ')' || c = '*') then false
  else true

/-- `unescape` from `net/url/url.go`: percent-decodes `s`, failing exactly
where the Go function returns an error (malformed escapes, forbidden escapes
in host/zone context, raw characters that hosts must escape). -/
def unescapeGo (mode : Encoding) : List Char → Except String (List Char)
  | [] => .ok []
  | '%' :: c1 :: c2 :: rest =>
    if ishex c1 && ishex c2 then
      if mode = .encodeHost && unhex c1 < 8 && !(c1 = '2' && c2 = '5') then
        .error "invalid URL escape"
      else if mode = .encodeZone && !(c1 = '2' && c2 = '5') &&
          (unhex c1 * 16 + unhex c2 ≠ 32) &&
          shouldEscape (Char.ofNat (unhex c1 * 16 + unhex c2)) .encodeHost then
        .error "invalid URL escape"
      else
        (unescapeGo mode rest).map (Char.ofNat (unhex c1 * 16 + unhex c2) :: ·)
    else .error "invalid URL escape"
  | '%' :: _ => .error "invalid URL escape"
  | '+' :: rest =>
    (unescapeGo mode rest).map
      ((if mode = .encodeQueryComponent then ' ' else '+') :: ·)
  | c :: rest =>
    if (mode = .encodeHost || mode = .encodeZone) && c.toNat < 128 &&
        shouldEscape c mode then
      .error "invalid character in host name"
    else (unescapeGo mode rest).map (c :: ·)

/-- Worker for `getSchemeGo`; `raw` is the whole input, the list argument the
unread tail, `acc` the (reversed) scheme candidate read so far. -/
def getSchemeAux (raw : List Char) : List Char → List Char →
    Except String (List Char × List Char)
  | [], _ => .ok ([], raw)
  | c :: rest, acc =>
    if isAlphaCh c then getSchemeAux raw rest (c :: acc)
    else if isDigitCh c || c = '+' || c = '-' || c = '.' then
      (if acc = [] then .ok ([], raw) else getSchemeAux raw rest (c :: acc))
    else if c = ':' then
      (if acc = [] then .error "missing protocol scheme"
       else .ok (acc.reverse, rest))
    else .ok ([], raw)

/-- `getScheme` from `net/url/url.go`: splits a leading `scheme:` off the
URL. -/
def getSchemeGo (raw : List Char) : Except String (List Char × List Char) :=
  getSchemeAux raw raw []

/-- `split` from `net/url/url.go`. -/
def splitGo (s : List Char) (sep : Char) (cutc : Bool) : List Char × List Char :=
  let p := s.span (fun c => c != sep)
  match p.2 with
  | [] => (s, [])
  | _ :: after => (p.1, if cutc then after else p.2)

/-- `stringContainsCTLByte` from `net/url/url.go`. -/
def stringContainsCTLByte (s : List Char) : Bool :=
  s.any fun c => c.toNat < 32 || c.toNat = 127

/-- `validOptionalPort` from `net/url/url.go`. -/
def validOptionalPort : List Char → Bool
  | [] => true
  | c :: rest => c = ':' && rest.all isDigitCh

/-- `validUserinfo` from `net/url/url.go`. -/
def validUserinfo (s : List Char) : Bool :=
  s.all fun r =>
    isAlphaCh r || isDigitCh r ||
    r = '-' || r = '.' || r = '_' || r = ':' || r = '~' || r = '!' ||
    r = '$' || r = '&' || r = squoteCh || r = '(' || r = ')' || r = '*' ||
    r = '+' || r = ',' || r = ';' || r = '=' || r = '%' || r = '@'

/-- Index of the last occurrence of `c`, if any. -/
def lastIdxOf : List Char → Char → Option Nat
  | [], _ => none
  | a :: rest, c =>
    match lastIdxOf rest c with
    | some i => some (i + 1)
    | none => if a = c then some 0 else none

/-- Index of the first occurrence of the substring `%25`, if any
(`strings.Index(host, "%25")`). -/
def findSub125 : List Char → Option Nat
  | '%' :: '2' :: '5' :: _ => some 0
  | _ :: rest => (findSub125 rest).map (· + 1)
  | [] => none

/-- Userinfo as parsed from the authority (`url.User`). -/
structure Userinfo where
  username : List Char
  password : Option (List Char)
deriving DecidableEq

/-- `parseHost` from `net/url/url.go`. -/
def parseHostGo (host : List Char) : Except String (List Char) :=
  match host with
  | '[' :: _ =>
    match lastIdxOf host ']' with
    | none => .error "missing closing bracket in host"
    | some i =>
      if !validOptionalPort (host.drop (i + 1)) then
        .error "invalid port after host"
      else
        match findSub125 (host.take i) with
        | some zone => do
          let h1 ← unescapeGo .encodeHost (host.take zone)
          let h2 ← unescapeGo .encodeZone ((host.take i).drop zone)
          let h3 ← unescapeGo .encodeHost (host.drop i)
          return h1 ++ h2 ++ h3
        | none => unescapeGo .encodeHost host
  | _ =>
    match lastIdxOf host ':' with
    | some i =>
      if !validOptionalPort (host.drop i) then
        .error "invalid port after host"
      else unescapeGo .encodeHost host
    | none => unescapeGo .encodeHost host

/-- `parseAuthority` from `net/url/url.go`. -/
def parseAuthority (authority : List Char) :
    Except String (Option Userinfo × List Char) :=
  match lastIdxOf authority '@' with
  | none => do
    let host ← parseHostGo authority
    return (none, host)
  | some i => do
    let host ← parseHostGo (authority.drop (i + 1))
    let userinfo := authority.take i
    if !validUserinfo userinfo then
      .error "net/url: invalid userinfo"
    else
      match userinfo.findIdx? (· == ':') with
      | none => do
        let u ← unescapeGo .encodeUserPassword userinfo
        return (some ⟨u, none⟩, host)
      | some j => do
        let u ← unescapeGo .encodeUserPassword (userinfo.take j)
        let p ← unescapeGo .encodeUserPassword (userinfo.drop (j + 1))
        return (some ⟨u, some p⟩, host)

/-- The parsed URL (`url.URL`); `opq` models the `Opaque` field. -/
structure GoURL where
  scheme : List Char
  opq : List Char
  user : Option Userinfo
  host : List Char
  path : List Char
  forceQuery : Bool
  rawQuery : List Char
  fragment : List Char
deriving DecidableEq

/-- The zero `url.URL`. -/
def emptyURL : GoURL := ⟨[], [], none, [], [], false, [], []⟩

def startsWithSlash : List Char → Bool
  | '/' :: _ => true
  | _ => false

def startsWith2Slash : List Char → Bool
  | '/' :: '/' :: _ => true
  | _ => false

def startsWith3Slash : List Char → Bool
  | '/' :: '/' :: '/' :: _ => true
  | _ => false

/-- `strings.Cut(rest, "/")` first segment contains a colon. -/
def segmentHasColon (rest : List Char) : Bool :=
  ((rest.span (fun c => c != '/')).1).any (· == ':')

/-- The tail of `parse` from `net/url/url.go`: the authority/path handling
after scheme, query and the opaque/colon gates. -/
def parseTail (scheme rest : List Char) (forceQuery : Bool)
    (rawQuery : List Char) (viaRequest : Bool) : Except String GoURL :=
  if (!scheme.isEmpty || (!viaRequest && !startsWith3Slash rest)) &&
      startsWith2Slash rest then do
    let s := splitGo (rest.drop 2) '/' false
    let a ← parseAuthority s.1
    let p ← unescapeGo .encodePath s.2
    return { emptyURL with
      scheme := scheme, user := a.1, host := a.2, path := p,
      forceQuery := forceQuery, rawQuery := rawQuery }
  else do
    let p ← unescapeGo .encodePath rest
    return { emptyURL with
      scheme := scheme, path := p,
      forceQuery := forceQuery, rawQuery := rawQuery }

/-- `parse` from `net/url/url.go` (the fragment has already been split off). -/
def parseGo (rawURL : List Char) (viaRequest : Bool) : Except String GoURL :=
  if stringContainsCTLByte rawURL then
    .error "net/url: invalid control character in URL"
  else if rawURL.isEmpty && viaRequest then
    .error "empty url"
  else if rawURL = ['*'] then
    .ok { emptyURL with path := ['*'] }
  else
    match getSchemeGo rawURL with
    | .error e => .error e
    | .ok (scheme0, rest0) =>
      let scheme := scheme0.map Char.toLower
      let qsplit :=
        if rest0.getLast? = some '?' && rest0.dropLast.all (fun c => c != '?') then
          (rest0.dropLast, true, ([] : List Char))
        else
          let s := splitGo rest0 '?' true
          (s.1, false, s.2)
      let rest1 := qsplit.1
      let forceQuery := qsplit.2.1
      let rawQuery := qsplit.2.2
      if !startsWithSlash rest1 then
        if !scheme.isEmpty then
          .ok { emptyURL with
            scheme := scheme, opq := rest1,
            forceQuery := forceQuery, rawQuery := rawQuery }
        else if viaRequest then
          .error "invalid URI for request"
        else if segmentHasColon rest1 then
          .error "first path segment in URL cannot contain colon"
        else parseTail scheme rest1 forceQuery rawQuery viaRequest
      else parseTail scheme rest1 forceQuery rawQuery viaRequest

/-- The double-quote character as a one-character string. -/
def dq : String := String.mk [dquoteCh]

/-- How `(&url.Error).Error()` renders: `parse "<url>": <cause>` (the `%q`
escaping of exotic characters is not modelled). -/
def wrapParseErr (u : List Char) (e : String) : String :=
  "parse " ++ dq ++ String.mk u ++ dq ++ ": " ++ e

/-- `url.Parse` from `net/url/url.go`: splits the fragment, parses the rest,
validates the fragment escapes; errors are wrapped in `&url.Error`. -/
def urlParseGo (rawURL : List Char) : Except String GoURL :=
  let s := splitGo rawURL '#' true
  match parseGo s.1 false with
  | .error e => .error (wrapParseErr s.1 e)
  | .ok u =>
    if s.2.isEmpty then .ok u
    else
      match unescapeGo .encodeFragment s.2 with
      | .error e => .error (wrapParseErr rawURL e)
      | .ok f => .ok { u with fragment := f }

/-- `url.Parse` on a Lean `String`. -/
def urlParse (s : String) : Except String GoURL :=
  urlParseGo s.toList

/-! ### The provider (`src/pulsar/provider.go`) -/

/-- `common.APIVersion`: the fixed, closed set of supported protocol
versions iterated by `providerConfigure`. -/
inductive APIVersion where
  | V1
  | V2
  | V3
deriving DecidableEq

/-- `common.Config` restricted to the fields `providerConfigure` sets. -/
structure Config where
  webServiceURL : String
  token : String
  pulsarAPIVersion : APIVersion
  tlsTrustCertsFilePath : String
  tlsAllowInsecureConnection : Bool
deriving DecidableEq

/-- The raw provider configuration held by `schema.ResourceData`: the
required `web_service_url` plus the optional fields, `none` when the user
(and environment) did not supply them. -/
structure ResourceData where
  webServiceUrlRaw : String
  tokenRaw : Option String
  apiVersionRaw : Option String
  tlsTrustCertsFilePathRaw : Option String
  tlsAllowInsecureConnectionRaw : Option Bool
deriving DecidableEq

/-- `d.Get("web_service_url").(string)`. -/
def ResourceData.getWebServiceURL (d : ResourceData) : String :=
  d.webServiceUrlRaw

/-- `d.Get("token").(string)`: the schema zero value `""` when unset. -/
def ResourceData.getToken (d : ResourceData) : String :=
  d.tokenRaw.getD ""

/-- `d.Get("api_version").(string)`: the schema default `"1"` when unset.
(The provider never reads this field in `providerConfigure`.) -/
def ResourceData.getApiVersion (d : ResourceData) : String :=
  d.apiVersionRaw.getD "1"

/-- `d.Get("tls_trust_certs_file_path").(string)`: `""` when unset. -/
def ResourceData.getTLSTrustCertsFilePath (d : ResourceData) : String :=
  d.tlsTrustCertsFilePathRaw.getD ""

/-- `d.Get("tls_allow_insecure_connection").(bool)`: `false` when unset. -/
def ResourceData.getTLSAllowInsecureConnection (d : ResourceData) : Bool :=
  d.tlsAllowInsecureConnectionRaw.getD false

/-- The `&common.Config` literal built in the loop body of
`providerConfigure` for one version. -/
def versionConfig (d : ResourceData) (version : APIVersion) : Config :=
  { webServiceURL := d.getWebServiceURL
    token := d.getToken
    pulsarAPIVersion := version
    tlsTrustCertsFilePath := d.getTLSTrustCertsFilePath
    tlsAllowInsecureConnection := d.getTLSAllowInsecureConnection }

/-- The `meta` map of `providerConfigure`: protocol version to client, in
insertion order. -/
abbrev Registry (Client : Type) : Type := List (APIVersion × Client)

/-- `meta[version]` lookup on the registry. -/
def lookupClient {Client : Type} (m : Registry Client) (v : APIVersion) :
    Option Client :=
  (m.find? (fun e => e.1 == v)).map (·.2)

/-- The `for _, version := range []common.APIVersion{...}` loop of
`providerConfigure`, with the `pulsar.New` calls made explicit: the second
component records every configuration passed to `pulsarNew`, in call order. -/
def buildClients {Client : Type} (pulsarNew : Config → Except String Client)
    (d : ResourceData) : List APIVersion → Registry Client →
    Except String (Registry Client) × List Config
  | [], meta => (.ok meta, [])
  | version :: rest, meta =>
    let config := versionConfig d version
    match pulsarNew config with
    | .error err =>
      (.error ("failed to create pulsar client: " ++ err), [config])
    | .ok client =>
      let r := buildClients pulsarNew d rest (meta ++ [(version, client)])
      (r.1, config :: r.2)

/-- `providerConfigure` from `src/pulsar/provider.go`: reads the four
connection fields, then builds one client per version in the order
`V1, V2, V3`, failing fast.  `tfVersion` is read and discarded
(`_ = tfVersion`). -/
def providerConfigure {Client : Type}
    (pulsarNew : Config → Except String Client) (d : ResourceData)
    (tfVersion : String) :
    Except String (Registry Client) × List Config :=
  let _ := tfVersion
  buildClients pulsarNew d [APIVersion.V1, APIVersion.V2, APIVersion.V3] []

/-- `validatePulsarConfig` from `src/pulsar/provider.go`. -/
def validatePulsarConfig (d : ResourceData) : Except String Unit :=
  match urlParse d.getWebServiceURL with
  | .error e =>
    .error ("ERROR_PULSAR_CONFIG_INVALID_WEB_SERVICE_URL: " ++ e)
  | .ok _ => .ok ()

/-- The closure installed as `provider.ConfigureContextFunc`: defaults the
Terraform version string, runs the validation gate, then
`providerConfigure`.  The second component again records the `pulsarNew`
calls made. -/
def configureContextFunc {Client : Type}
    (pulsarNew : Config → Except String Client) (d : ResourceData)
    (terraformVersion : String) :
    Except String (Registry Client) × List Config :=
  let tfVersion :=
    if terraformVersion = "" then "0.11+compatible" else terraformVersion
  match validatePulsarConfig d with
  | .error e => (.error e, [])
  | .ok _ => providerConfigure pulsarNew d tfVersion

/-! ### Concrete instances used by witnesses and counterexamples -/

/-- An always-succeeding backend constructor returning the configuration
itself as the client handle. -/
def okNew : Config → Except String Config := fun c => .ok c

/-- A backend constructor failing exactly on version `V1`. -/
def failV1New : Config → Except String Config := fun c =>
  if c.pulsarAPIVersion = .V1 then .error "connection refused" else .ok c

/-- A backend constructor failing exactly on version `V2`. -/
def failV2New : Config → Except String Config := fun c =>
  if c.pulsarAPIVersion = .V2 then .error "connection refused" else .ok c

/-- A fully supplied valid raw configuration. -/
def d0 : ResourceData :=
  ⟨"https://pulsar.example.com:8080", some "", none, none, none⟩

/-- The raw configuration of the spec example `endpoint="not a url"`. -/
def dNotAUrl : ResourceData := ⟨"not a url", none, none, none, none⟩

/-- A raw configuration with the endpoint left empty. -/
def dEmpty : ResourceData := ⟨"", none, none, none, none⟩

/-- A raw configuration whose endpoint `":"` fails URL parsing. -/
def dColon : ResourceData := ⟨":", none, none, none, none⟩

/-- `Except.isOk` as a plain definition. -/
def isOkE {ε α : Type} : Except ε α → Bool
  | .ok _ => true
  | .error _ => false

/-- `Except.toOption` as a plain definition. -/
def toOpt {ε α : Type} : Except ε α → Option α
  | .ok a => some a
  | .error _ => none

/-- `xs` is an initial segment of `ys`. -/
def ListLeads {α : Type} (xs ys : List α) : Prop :=
  ∃ t, xs ++ t = ys

/-- The registry produced by a successful run of `providerConfigure` with
the identity constructor `okNew` on `d0`. -/
def reg0 : Registry Config :=
  [(APIVersion.V1, versionConfig d0 .V1), (APIVersion.V2, versionConfig d0 .V2),
   (APIVersion.V3, versionConfig d0 .V3)]

/-! ### Helper lemmas -/

/-- `providerConfigure` computed out: it tries `V1`, `V2`, `V3` in order,
stops at the first failing `pulsarNew` call, and otherwise returns the
three-entry registry. -/
theorem providerConfigure_char {Client : Type}
    (pulsarNew : Config → Except String Client) (d : ResourceData)
    (tfv : String) :
    providerConfigure pulsarNew d tfv =
      match pulsarNew (versionConfig d .V1) with
      | .error e =>
        (.error ("failed to create pulsar client: " ++ e), [versionConfig d .V1])
      | .ok c1 =>
        match pulsarNew (versionConfig d .V2) with
        | .error e =>
          (.error ("failed to create pulsar client: " ++ e),
           [versionConfig d .V1, versionConfig d .V2])
        | .ok c2 =>
          match pulsarNew (versionConfig d .V3) with
          | .error e =>
            (.error ("failed to create pulsar client: " ++ e),
             [versionConfig d .V1, versionConfig d .V2, versionConfig d .V3])
          | .ok c3 =>
            (.ok [(APIVersion.V1, c1), (APIVersion.V2, c2), (APIVersion.V3, c3)],
             [versionConfig d .V1, versionConfig d .V2, versionConfig d .V3]) := by
  simp only [providerConfigure, buildClients]
  cases pulsarNew (versionConfig d APIVersion.V1) <;>
    cases pulsarNew (versionConfig d APIVersion.V2) <;>
      cases pulsarNew (versionConfig d APIVersion.V3) <;>
        simp [buildClients]

/-- Configurations built for different versions are different values. -/
theorem versionConfig_ne (d : ResourceData) {v w : APIVersion} (h : v ≠ w) :
    versionConfig d v ≠ versionConfig d w := by
  intro hc
  exact h (congrArg Config.pulsarAPIVersion hc)

/-- The construction trace is always an initial segment of the full
`V1, V2, V3` configuration list. -/
theorem trace_leads {Client : Type}
    (pulsarNew : Config → Except String Client) (d : ResourceData)
    (tfv : String) :
    ListLeads (providerConfigure pulsarNew d tfv).2
      [versionConfig d .V1, versionConfig d .V2, versionConfig d .V3] := by
  have hc := providerConfigure_char pulsarNew d tfv
  cases h1 : pulsarNew (versionConfig d .V1) with
  | error e =>
    exact ⟨[versionConfig d .V2, versionConfig d .V3], by rw [hc]; simp [h1]⟩
  | ok c1 =>
    cases h2 : pulsarNew (versionConfig d .V2) with
    | error e =>
      exact ⟨[versionConfig d .V3], by rw [hc]; simp [h1, h2]⟩
    | ok c2 =>
      cases h3 : pulsarNew (versionConfig d .V3) with
      | error e => exact ⟨[], by rw [hc]; simp [h1, h2, h3]⟩
      | ok c3 => exact ⟨[], by rw [hc]; simp [h1, h2, h3]⟩

/-! ### Claim theorems -/

/-- C1: whenever `providerConfigure` succeeds, the returned registry has
exactly 3 entries, lookup succeeds for each of `V1`, `V2`, `V3` and returns
the client built for that version, and (the backend constructor returning a
fresh handle per call, modelled as injectivity) the three clients are
pairwise distinct. -/
theorem configure_registry_total {Client : Type}
    (pulsarNew : Config → Except String Client) (d : ResourceData)
    (tfv : String) (reg : Registry Client)
    (h : (providerConfigure pulsarNew d tfv).1 = .ok reg) :
    reg.length = 3 ∧
    (∀ v : APIVersion, ∃ c, lookupClient reg v = some c ∧
        pulsarNew (versionConfig d v) = .ok c) ∧
    (Function.Injective pulsarNew →
      ∀ v w : APIVersion, v ≠ w → lookupClient reg v ≠ lookupClient reg w) := by
  have hc := providerConfigure_char pulsarNew d tfv
  cases h1 : pulsarNew (versionConfig d .V1) with
  | error e => rw [hc] at h; simp [h1] at h
  | ok c1 =>
    cases h2 : pulsarNew (versionConfig d .V2) with
    | error e => rw [hc] at h; simp [h1, h2] at h
    | ok c2 =>
      cases h3 : pulsarNew (versionConfig d .V3) with
      | error e => rw [hc] at h; simp [h1, h2, h3] at h
      | ok c3 =>
        rw [hc] at h; simp [h1, h2, h3] at h
        subst h
        refine ⟨rfl, ?_, ?_⟩
        · intro v
          cases v with
          | V1 => exact ⟨c1, rfl, h1⟩
          | V2 => exact ⟨c2, rfl, h2⟩
          | V3 => exact ⟨c3, rfl, h3⟩
        · intro hinj v w hvw heq
          cases v <;> cases w <;> simp [lookupClient] at heq hvw
          · exact @versionConfig_ne d APIVersion.V1 APIVersion.V2 (by decide)
              (hinj (by rw [h1, h2, heq]))
          · exact @versionConfig_ne d APIVersion.V1 APIVersion.V3 (by decide)
              (hinj (by rw [h1, h3, heq]))
          · exact @versionConfig_ne d APIVersion.V2 APIVersion.V1 (by decide)
              (hinj (by rw [h2, h1, heq]))
          · exact @versionConfig_ne d APIVersion.V2 APIVersion.V3 (by decide)
              (hinj (by rw [h2, h3, heq]))
          · exact @versionConfig_ne d APIVersion.V3 APIVersion.V1 (by decide)
              (hinj (by rw [h3, h1, heq]))
          · exact @versionConfig_ne d APIVersion.V3 APIVersion.V2 (by decide)
              (hinj (by rw [h3, h2, heq]))

/-- C1 witness: with the identity constructor on `d0` the registry is `reg0`
and it has 3 entries. -/
theorem configure_registry_total_witness :
    (providerConfigure okNew d0 "").1 = .ok reg0 ∧ reg0.length = 3 :=
  ⟨rfl, (configure_registry_total okNew d0 "" reg0 rfl).1⟩

/-- C2: if any version's construction fails, `providerConfigure` returns an
error (no registry), and the constructions attempted are exactly those for
the versions up to and including the first failing one, in the order
`V1, V2, V3`. -/
theorem configure_fail_fast {Client : Type}
    (pulsarNew : Config → Except String Client) (d : ResourceData)
    (tfv : String)
    (h : ∃ v ∈ [APIVersion.V1, APIVersion.V2, APIVersion.V3],
        isOkE (pulsarNew (versionConfig d v)) = false) :
    (∃ e, (providerConfigure pulsarNew d tfv).1 = .error e) ∧
    (providerConfigure pulsarNew d tfv).2 =
      ([APIVersion.V1, APIVersion.V2, APIVersion.V3].take
        (([APIVersion.V1, APIVersion.V2, APIVersion.V3].findIdx
          (fun v => !isOkE (pulsarNew (versionConfig d v)))) + 1)).map
        (versionConfig d) := by
  have hc := providerConfigure_char pulsarNew d tfv
  cases h1 : pulsarNew (versionConfig d .V1) with
  | error e =>
    refine ⟨⟨"failed to create pulsar client: " ++ e, by rw [hc]; simp [h1]⟩, ?_⟩
    rw [hc]; simp [h1, List.findIdx, List.findIdx.go, isOkE]
  | ok c1 =>
    cases h2 : pulsarNew (versionConfig d .V2) with
    | error e =>
      refine ⟨⟨"failed to create pulsar client: " ++ e, by rw [hc]; simp [h1, h2]⟩, ?_⟩
      rw [hc]; simp [h1, h2, List.findIdx, List.findIdx.go, isOkE]
    | ok c2 =>
      cases h3 : pulsarNew (versionConfig d .V3) with
      | error e =>
        refine ⟨⟨"failed to create pulsar client: " ++ e, by rw [hc]; simp [h1, h2, h3]⟩, ?_⟩
        rw [hc]; simp [h1, h2, h3, List.findIdx, List.findIdx.go, isOkE]
      | ok c3 =>
        exfalso
        rcases h with ⟨v, hv, hf⟩
        fin_cases hv <;> simp [isOkE, h1, h2, h3] at hf

/-- C2 witness: with a constructor failing at `V2` on `d0`, the run errors
and only the `V1` and `V2` constructions are attempted. -/
theorem configure_fail_fast_witness :
    (∃ e, (providerConfigure failV2New d0 "").1 = .error e) ∧
    (providerConfigure failV2New d0 "").2 =
      ([APIVersion.V1, APIVersion.V2, APIVersion.V3].take
        (([APIVersion.V1, APIVersion.V2, APIVersion.V3].findIdx
          (fun v => !isOkE (failV2New (versionConfig d0 v)))) + 1)).map
        (versionConfig d0) :=
  configure_fail_fast failV2New d0 "" ⟨APIVersion.V2, by decide, by decide⟩

/-- C3: if the endpoint fails URL parsing, the configure entry point returns
the invalid-web-service-url error wrapping the parse diagnostic, and no
client construction is attempted. -/
theorem invalid_endpoint_gate {Client : Type}
    (pulsarNew : Config → Except String Client) (d : ResourceData)
    (tfv e : String) (h : urlParse d.getWebServiceURL = .error e) :
    (configureContextFunc pulsarNew d tfv).1 =
      .error ("ERROR_PULSAR_CONFIG_INVALID_WEB_SERVICE_URL: " ++ e) ∧
    (configureContextFunc pulsarNew d tfv).2 = [] := by
  constructor <;> simp [configureContextFunc, validatePulsarConfig, h]

/-- C3 witness: the endpoint `":"` fails URL parsing; configure rejects it
and attempts zero constructions. -/
theorem invalid_endpoint_gate_witness :
    (configureContextFunc okNew dColon "").1 =
      .error ("ERROR_PULSAR_CONFIG_INVALID_WEB_SERVICE_URL: " ++
        ("parse " ++ dq ++ ":" ++ dq ++ ": missing protocol scheme")) ∧
    (configureContextFunc okNew dColon "").2 = [] :=
  invalid_endpoint_gate okNew dColon ""
    ("parse " ++ dq ++ ":" ++ dq ++ ": missing protocol scheme") (by rfl)

/-- C4: contrary to the spec example, the endpoint `"not a url"` is accepted
by Go's `url.Parse`, so validation passes and all three clients are
constructed — the configure entry point returns a full registry instead of
`InvalidEndpoint` with zero constructions. -/
theorem not_a_url_accepted :
    validatePulsarConfig dNotAUrl = .ok () ∧
    (configureContextFunc okNew dNotAUrl "").2 =
      [versionConfig dNotAUrl .V1, versionConfig dNotAUrl .V2,
       versionConfig dNotAUrl .V3] ∧
    (configureContextFunc okNew dNotAUrl "").1 =
      .ok [(APIVersion.V1, versionConfig dNotAUrl .V1),
           (APIVersion.V2, versionConfig dNotAUrl .V2),
           (APIVersion.V3, versionConfig dNotAUrl .V3)] :=
  ⟨rfl, rfl, rfl⟩

/-- C5: the constructions are attempted in the fixed order `V1, V2, V3`
(the trace is an initial segment of that configuration list), and each
configuration passed to the factory carries the normalized endpoint, token,
TLS trust path and insecure flag unchanged, differing only in the version
field. -/
theorem construction_order {Client : Type}
    (pulsarNew : Config → Except String Client) (d : ResourceData)
    (tfv : String) :
    ListLeads (providerConfigure pulsarNew d tfv).2
      [versionConfig d .V1, versionConfig d .V2, versionConfig d .V3] ∧
    ∀ v : APIVersion,
      (versionConfig d v).webServiceURL = d.getWebServiceURL ∧
      (versionConfig d v).token = d.getToken ∧
      (versionConfig d v).tlsTrustCertsFilePath = d.getTLSTrustCertsFilePath ∧
      (versionConfig d v).tlsAllowInsecureConnection =
        d.getTLSAllowInsecureConnection ∧
      (versionConfig d v).pulsarAPIVersion = v :=
  ⟨trace_leads pulsarNew d tfv, fun _ => ⟨rfl, rfl, rfl, rfl, rfl⟩⟩

/-- C6 counterexample: a run whose first failure is at `V1` and a run whose
first failure is at `V2` produce the same error value, so the error does not
carry enough context to identify which protocol version failed. -/
theorem error_does_not_name_version :
    (providerConfigure failV1New d0 "").1 =
      .error "failed to create pulsar client: connection refused" ∧
    (providerConfigure failV2New d0 "").1 =
      .error "failed to create pulsar client: connection refused" ∧
    isOkE (failV1New (versionConfig d0 .V1)) = false ∧
    isOkE (failV2New (versionConfig d0 .V1)) = true ∧
    isOkE (failV2New (versionConfig d0 .V2)) = false :=
  ⟨rfl, rfl, rfl, rfl, rfl⟩

/-- C6 amended: when `providerConfigure` fails, its error wraps the
underlying cause of some failing version behind the fixed prefix
`failed to create pulsar client: ` (but does not itself say which version
failed). -/
theorem error_wraps_cause {Client : Type}
    (pulsarNew : Config → Except String Client) (d : ResourceData)
    (tfv s : String)
    (h : (providerConfigure pulsarNew d tfv).1 = .error s) :
    ∃ v e, pulsarNew (versionConfig d v) = .error e ∧
      s = "failed to create pulsar client: " ++ e := by
  have hc := providerConfigure_char pulsarNew d tfv
  cases h1 : pulsarNew (versionConfig d .V1) with
  | error e =>
    rw [hc] at h; simp [h1] at h
    exact ⟨.V1, e, h1, h.symm⟩
  | ok c1 =>
    cases h2 : pulsarNew (versionConfig d .V2) with
    | error e =>
      rw [hc] at h; simp [h1, h2] at h
      exact ⟨.V2, e, h2, h.symm⟩
    | ok c2 =>
      cases h3 : pulsarNew (versionConfig d .V3) with
      | error e =>
        rw [hc] at h; simp [h1, h2, h3] at h
        exact ⟨.V3, e, h3, h.symm⟩
      | ok c3 => rw [hc] at h; simp [h1, h2, h3] at h

/-- C6-amended witness: the error of a `V1`-failing run wraps the cause
`connection refused` behind the fixed prefix. -/
theorem error_wraps_cause_witness :
    ∃ v e, failV1New (versionConfig d0 v) = .error e ∧
      "failed to create pulsar client: connection refused" =
        "failed to create pulsar client: " ++ e :=
  error_wraps_cause failV1New d0 ""
    "failed to create pulsar client: connection refused" rfl

/-- C7: when token, TLS trust path and insecure flag are not supplied, every
configuration handed to the factory has empty token, empty TLS trust path
and insecure flag `false` (and the supplied endpoint). -/
theorem defaults_applied {Client : Type}
    (pulsarNew : Config → Except String Client) (url : String)
    (oav : Option String) (tfv : String) :
    ∀ config ∈ (providerConfigure pulsarNew ⟨url, none, oav, none, none⟩ tfv).2,
      config.token = "" ∧ config.tlsTrustCertsFilePath = "" ∧
      config.tlsAllowInsecureConnection = false ∧
      config.webServiceURL = url := by
  intro config hcfg
  obtain ⟨t, ht⟩ := trace_leads pulsarNew ⟨url, none, oav, none, none⟩ tfv
  have hmem : config ∈
      [versionConfig ⟨url, none, oav, none, none⟩ .V1,
       versionConfig ⟨url, none, oav, none, none⟩ .V2,
       versionConfig ⟨url, none, oav, none, none⟩ .V3] := by
    rw [← ht]
    exact List.mem_append_left t hcfg
  simp only [List.mem_cons, List.not_mem_nil, or_false] at hmem
  rcases hmem with h | h | h <;> subst h <;> exact ⟨rfl, rfl, rfl, rfl⟩

/-- C7 witness: the `V1` configuration built from a raw configuration with
all optional fields unset has empty token, empty TLS path and insecure flag
`false`. -/
theorem defaults_applied_witness :
    (versionConfig ⟨"x", none, none, none, none⟩ APIVersion.V1).token = "" ∧
    (versionConfig ⟨"x", none, none, none, none⟩
      APIVersion.V1).tlsTrustCertsFilePath = "" ∧
    (versionConfig ⟨"x", none, none, none, none⟩
      APIVersion.V1).tlsAllowInsecureConnection = false ∧
    (versionConfig ⟨"x", none, none, none, none⟩
      APIVersion.V1).webServiceURL = "x" :=
  defaults_applied okNew "x" none ""
    (versionConfig ⟨"x", none, none, none, none⟩ APIVersion.V1) (by decide)

/-- C8: `providerConfigure` keeps no state across invocations: two runs on
the same input (whatever the Terraform version string) are identical, each
successful run performs its own three constructions (one per version), and
the registry entry for each version is exactly the factory output on the
configuration derived from the input endpoint, token and TLS settings. -/
theorem configure_independent {Client : Type}
    (pulsarNew : Config → Except String Client) (d : ResourceData)
    (tfv tfv' : String) (reg : Registry Client)
    (h : (providerConfigure pulsarNew d tfv).1 = .ok reg) :
    providerConfigure pulsarNew d tfv = providerConfigure pulsarNew d tfv' ∧
    (providerConfigure pulsarNew d tfv).2 =
      [versionConfig d .V1, versionConfig d .V2, versionConfig d .V3] ∧
    ∀ v : APIVersion, lookupClient reg v = toOpt (pulsarNew (versionConfig d v)) := by
  have hc := providerConfigure_char pulsarNew d tfv
  refine ⟨rfl, ?_, ?_⟩ <;>
  · cases h1 : pulsarNew (versionConfig d .V1) with
    | error e => rw [hc] at h; simp [h1] at h
    | ok c1 =>
      cases h2 : pulsarNew (versionConfig d .V2) with
      | error e => rw [hc] at h; simp [h1, h2] at h
      | ok c2 =>
        cases h3 : pulsarNew (versionConfig d .V3) with
        | error e => rw [hc] at h; simp [h1, h2, h3] at h
        | ok c3 =>
          rw [hc] at h; simp [h1, h2, h3] at h
          first
          | (rw [hc]; simp [h1, h2, h3])
          | (subst h
             intro v
             cases v <;> simp [lookupClient, toOpt, h1, h2, h3])

/-- C8 witness: two runs on `d0` with different Terraform version strings
coincide, the trace contains all three constructions, and each registry
entry is the factory output for its version. -/
theorem configure_independent_witness :
    providerConfigure okNew d0 "" = providerConfigure okNew d0 "x" ∧
    (providerConfigure okNew d0 "").2 =
      [versionConfig d0 .V1, versionConfig d0 .V2, versionConfig d0 .V3] ∧
    ∀ v : APIVersion, lookupClient reg0 v = toOpt (okNew (versionConfig d0 v)) :=
  configure_independent okNew d0 "" "x" reg0 rfl

/-- C9: neither the deprecated `api_version` field nor the Terraform version
string influences the outcome: configure runs on raw configurations that
differ only in those produce identical results. -/
theorem api_version_irrelevant {Client : Type}
    (pulsarNew : Config → Except String Client) (url : String)
    (tok : Option String) (av av' : Option String) (path : Option String)
    (ins : Option Bool) (tfv tfv' : String) :
    configureContextFunc pulsarNew ⟨url, tok, av, path, ins⟩ tfv =
      configureContextFunc pulsarNew ⟨url, tok, av', path, ins⟩ tfv' := rfl

/-- C10: any endpoint accepted by `url.Parse` — the empty string included —
passes `validatePulsarConfig`, after which client construction proceeds:
the first configuration handed to the factory carries that very endpoint. -/
theorem validate_lenient {Client : Type}
    (pulsarNew : Config → Except String Client) (d : ResourceData)
    (tfv : String) (h : isOkE (urlParse d.getWebServiceURL) = true) :
    validatePulsarConfig d = .ok () ∧
    (∃ rest, (configureContextFunc pulsarNew d tfv).2 =
      versionConfig d .V1 :: rest) ∧
    (versionConfig d .V1).webServiceURL = d.getWebServiceURL := by
  have hv : validatePulsarConfig d = .ok () := by
    unfold validatePulsarConfig
    cases hu : urlParse d.getWebServiceURL with
    | error e => rw [hu] at h; simp [isOkE] at h
    | ok u => rfl
  refine ⟨hv, ?_, rfl⟩
  have htf : (configureContextFunc pulsarNew d tfv).2 =
      (providerConfigure pulsarNew d
        (if tfv = "" then "0.11+compatible" else tfv)).2 := by
    unfold configureContextFunc
    rw [hv]
  rw [htf]
  have hc := providerConfigure_char pulsarNew d
    (if tfv = "" then "0.11+compatible" else tfv)
  cases h1 : pulsarNew (versionConfig d .V1) with
  | error e => exact ⟨[], by rw [hc]; simp [h1]⟩
  | ok c1 =>
    cases h2 : pulsarNew (versionConfig d .V2) with
    | error e => exact ⟨[versionConfig d .V2], by rw [hc]; simp [h1, h2]⟩
    | ok c2 =>
      cases h3 : pulsarNew (versionConfig d .V3) with
      | error e =>
        exact ⟨[versionConfig d .V2, versionConfig d .V3],
          by rw [hc]; simp [h1, h2, h3]⟩
      | ok c3 =>
        exact ⟨[versionConfig d .V2, versionConfig d .V3],
          by rw [hc]; simp [h1, h2, h3]⟩

/-- C10 witness: the empty endpoint passes validation and the first
construction is attempted with the empty endpoint. -/
theorem validate_lenient_witness :
    validatePulsarConfig dEmpty = .ok () ∧
    (∃ rest, (configureContextFunc okNew dEmpty "").2 =
      versionConfig dEmpty .V1 :: rest) ∧
    (versionConfig dEmpty .V1).webServiceURL = dEmpty.getWebServiceURL :=
  validate_lenient okNew dEmpty "" (by rfl)

end TfPulsar
